import Mathlib

/-!
# Verification of the agents-aea transport layer (connections)

Shallow embedding of the connection code sampled from the repository:

* `p2p_noise/connection.py` — the overlay-node connection (`NoiseNode` with
  its named-pipe framing, pipe-open retry loop, inbound pump, and the
  `P2PNoiseConnection` lifecycle methods),
* `http_client/connection.py` — `HTTPClientChannel` / `HTTPClientConnection`,
* `prometheus/connection.py` — `PrometheusChannel` / `PrometheusConnection`.

Bytes are modelled as `List Nat` (each entry a byte value), streams as lists
of bytes, Python exceptions as explicit error results (`Except` / dedicated
outcome inductives), and `asyncio` queues as lists of enqueued items.
-/

namespace AeaTransport

/-! ## Wire framing for the noise node pipes

`NoiseNode.write` (connection.py lines 409–414) packs `len(data)` with
`struct.pack("!I", ...)` — a 4-byte big-endian unsigned prefix — and writes
prefix then payload.  `struct.pack("!I", n)` raises `struct.error` when
`n ≥ 2^32`; the encoding below is the byte sequence produced in the
non-raising case. -/

/-- The 4 big-endian bytes of `n`, as emitted by `struct.pack("!I", n)`
for `n < 2^32`. -/
def be32enc (n : Nat) : List Nat :=
  [n / 16777216 % 256, n / 65536 % 256, n / 256 % 256, n % 256]

/-- Big-endian interpretation of a byte list, as computed by
`struct.unpack("!I", buf)[0]` on a 4-byte buffer. -/
def be32dec (b : List Nat) : Nat :=
  b.foldl (fun acc x => acc * 256 + x) 0

/-- `NoiseNode.write data`: the bytes appended to the outbound pipe —
the 4-byte big-endian length prefix followed by exactly the payload. -/
def noiseWrite (data : List Nat) : List Nat :=
  be32enc data.length ++ data

/-- The concatenated outbound stream after writing each payload in order. -/
def noiseWriteAll (payloads : List (List Nat)) : List Nat :=
  (payloads.map noiseWrite).flatten

/-- `NoiseNode.read` (connection.py lines 416–436) acting on the remaining
inbound stream `s`.  It returns `some (data, rest)` for a successfully
framed payload and the unconsumed stream, and `none` where the Python code
returns `None`:

* `readexactly(4)` raising `IncompleteReadError` (stream shorter than 4,
  including a clean close) is caught and mapped to `None`;
* `readexactly(size)` raising `IncompleteReadError` (fewer than `size`
  bytes remain) is caught and mapped to `None`;
* `if not data: return None` — a zero-length exact read (declared size 0)
  yields the empty bytes object, which is falsy, so `None` is returned.

(The earlier `if not buf: return None` guard is unreachable: `readexactly(4)`
either returns exactly 4 bytes or raises.) -/
def noiseRead (s : List Nat) : Option (List Nat × List Nat) :=
  if s.length < 4 then none
  else
    let size := be32dec (s.take 4)
    let rest := s.drop 4
    if rest.length < size then none
    else
      let data := rest.take size
      if data = [] then none
      else some (data, rest.drop size)

/-- Read exactly `n` successive frames from stream `s`, in order. -/
def noiseReadN : Nat → List Nat → Option (List (List Nat))
  | 0, _ => some []
  | n + 1, s =>
    match noiseRead s with
    | none => none
    | some (d, rest) =>
      match noiseReadN n rest with
      | none => none
      | some ds => some (d :: ds)

theorem be32enc_length (n : Nat) : (be32enc n).length = 4 := rfl

theorem be32dec_be32enc (n : Nat) (h : n < 4294967296) :
    be32dec (be32enc n) = n := by
  simp only [be32enc, be32dec, List.foldl]
  omega

/-- One framed write followed by arbitrary trailing bytes is read back as the
payload plus the trailing bytes, provided the payload is non-empty and its
length fits the 4-byte prefix. -/
theorem noiseRead_noiseWrite (p rest : List Nat) (hne : p ≠ [])
    (hlen : p.length < 4294967296) :
    noiseRead (noiseWrite p ++ rest) = some (p, rest) := by
  have h4 : (be32enc p.length).length = 4 := be32enc_length p.length
  have hstream : (noiseWrite p ++ rest).length = 4 + p.length + rest.length := by
    simp [noiseWrite, be32enc]
    omega
  have htake : (noiseWrite p ++ rest).take 4 = be32enc p.length := by
    rw [noiseWrite, List.append_assoc, ← h4, List.take_left]
  have hdrop : (noiseWrite p ++ rest).drop 4 = p ++ rest := by
    rw [noiseWrite, List.append_assoc, ← h4, List.drop_left]
  rw [noiseRead]
  rw [if_neg (by omega)]
  simp only [htake, hdrop, be32dec_be32enc p.length hlen]
  rw [if_neg (by simp)]
  rw [List.take_left, List.drop_left]
  rw [if_neg hne]

/-- C1 (amended form): the framed round trip restores every payload in
order, for payloads that are non-empty and of length below `2^32`. -/
theorem noiseReadN_noiseWriteAll (payloads : List (List Nat))
    (h : ∀ p ∈ payloads, p ≠ [] ∧ p.length < 4294967296) :
    noiseReadN payloads.length (noiseWriteAll payloads) = some payloads := by
  induction payloads with
  | nil => rfl
  | cons p ps ih =>
    have hp := h p (List.mem_cons_self p ps)
    have hps : ∀ q ∈ ps, q ≠ [] ∧ q.length < 4294967296 := by
      intro q hq
      exact h q (List.mem_cons_of_mem p hq)
    have hjoin : noiseWriteAll (p :: ps) = noiseWrite p ++ noiseWriteAll ps := by
      simp [noiseWriteAll]
    rw [List.length_cons, hjoin]
    simp only [noiseReadN, noiseRead_noiseWrite p (noiseWriteAll ps) hp.1 hp.2,
      ih hps]

/-! ## The pipe-open retry loop: `NoiseNode._connect` (lines 365–407)

The loop first checks `self._connection_attempts == 1` and raises
`Exception("Couldn't connect to noise p2p process")` when it holds, then
decrements the counter, opens the read end of the inbound pipe
(`os.open(..., O_RDONLY | O_NONBLOCK)`, outside any `try`: every failure
there propagates), then tries the write end
(`os.open(..., O_WRONLY | O_NONBLOCK)`): an `OSError` with
`errno == ENXIO` sleeps 2 seconds and re-enters `_connect`; every other
error re-raises.

`renv k` / `wenv k` give the outcome of the read-end / write-end open on
the k-th attempt.  The counter is a Python `int`: started at any value
`≥ 1` the recursion reaches the `== 1` check, while from `0` (never the
case in the code, which initializes it to 30) it would decrement past 1
forever — modelled by the `diverged` outcome on the `Nat` 0 pattern. -/

/-- Outcome of `os.open(aea_to_noise_path, O_WRONLY | O_NONBLOCK)`. -/
inductive OpenWriteResult where
  | opened : OpenWriteResult
  | enxio : OpenWriteResult
  | oserr : Nat → OpenWriteResult
deriving DecidableEq, Repr

/-- Result of running `NoiseNode._connect`. -/
inductive NodeConnectOutcome where
  | connected : NodeConnectOutcome
  | exhaustedRaise : NodeConnectOutcome
  | raised : Nat → NodeConnectOutcome
  | diverged : NodeConnectOutcome
deriving DecidableEq, Repr

/-- `NoiseNode._connect` with attempt environments `renv` (read-end open:
`some e` raises error `e`) and `wenv` (write-end open), attempt index
`idx`, and the current value of `self._connection_attempts` as the last
argument. -/
def nodeConnect (renv : Nat → Option Nat) (wenv : Nat → OpenWriteResult)
    (idx : Nat) : Nat → NodeConnectOutcome
  | 0 => NodeConnectOutcome.diverged
  | n + 1 =>
    if n = 0 then NodeConnectOutcome.exhaustedRaise
    else
      match renv idx with
      | some e => NodeConnectOutcome.raised e
      | none =>
        match wenv idx with
        | OpenWriteResult.opened => NodeConnectOutcome.connected
        | OpenWriteResult.oserr e => NodeConnectOutcome.raised e
        | OpenWriteResult.enxio => nodeConnect renv wenv (idx + 1) n

theorem nodeConnect_terminates (renv : Nat → Option Nat)
    (wenv : Nat → OpenWriteResult) (idx n : Nat) (h : 1 ≤ n) :
    nodeConnect renv wenv idx n ≠ NodeConnectOutcome.diverged := by
  induction n generalizing idx with
  | zero => omega
  | succ m ih =>
    rw [nodeConnect]
    by_cases hm : m = 0
    · simp [hm]
    · rw [if_neg hm]
      cases renv idx with
      | some e => simp
      | none =>
        cases wenv idx with
        | opened => simp
        | oserr e => simp
        | enxio => exact ih (idx + 1) (by omega)

/-! ## Connection lifecycle state

The old-style base class used by `P2PNoiseConnection` and
`HTTPClientConnection` keeps a `connection_status` object with two boolean
flags, written as `self.connection_status.is_connected` and
`self.connection_status.is_connecting` in connection.py. -/

/-- The two status flags of the old-style `connection_status` object. -/
structure ConnStatus where
  connectedFlag : Bool
  connectingFlag : Bool
deriving DecidableEq, Repr

/-- The fully disconnected status (both flags clear). -/
def disconnectedStatus : ConnStatus := ⟨false, false⟩

/-- A Python exception surfaced by the embedded code.  `osError` carries
the errno (9 = EBADF for a write on the initial fd value -1, 32 = EPIPE,
surfaced as `BrokenPipeError`, for a write on a FIFO whose only reader has
exited). -/
inductive PyError where
  | assertionError : String → PyError
  | valueError : String → PyError
  | connectionError : String → PyError
  | osError : Nat → PyError
  | genericExc : String → PyError
deriving DecidableEq, Repr

/-! ## `P2PNoiseConnection` lifecycle (connection.py lines 504–591) -/

/-- `P2PNoiseConnection.connect` (lines 504–526).  `startResult` is the
outcome of `await self.node.start()` (resource acquisition).  Returns the
error raised (if any) and the resulting status:

* already connected — return immediately, status unchanged;
* otherwise set `is_connecting := True`, run `node.start()`;
* on success clear `is_connecting`, set `is_connected`;
* on failure the handler runs `self.connection_status.is_connected = False`
  and re-raises the caught exception — `is_connecting` is never reset. -/
def p2pConnect (s : ConnStatus) (startResult : Except PyError Unit) :
    Option PyError × ConnStatus :=
  if s.connectedFlag then (none, s)
  else
    match startResult with
    | Except.ok _ => (none, ⟨true, false⟩)
    | Except.error e => (some e, ⟨false, true⟩)

/-- `P2PNoiseConnection.disconnect` (lines 528–546).  Starts with
`assert is_connected or is_connecting, "Call connect before disconnect."`;
then clears both flags, cancels the pump task, stops the node, and — when
`self._in_queue` was initialized — enqueues the `None` sentinel.  The
returned `Bool` records whether the sentinel was enqueued. -/
def p2pDisconnect (s : ConnStatus) (queueInitialized : Bool) :
    Except PyError (ConnStatus × Bool) :=
  if s.connectedFlag || s.connectingFlag then
    Except.ok (disconnectedStatus, queueInitialized)
  else
    Except.error (PyError.assertionError "Call connect before disconnect.")

/-- A protocol identifier `author/name:version` as compared by
`PublicId.__eq__`. -/
structure PublicId where
  author : String
  name : String
  version : String
deriving DecidableEq, Repr

/-- `P2PNoiseConnection.send` (lines 572–578) at a connected node.  The
body is exactly `await self.node.write(envelope.encode())`: it never
consults `self.connection_status`, never consults the connection's
`excluded_protocols`, and never inspects the envelope's `protocol_id`, so
those appear as arguments the result does not depend on.  The result is
the framed bytes handed to `os.write` on the outbound pipe.  This model
abstracts the write-end file-descriptor state and so is valid where that
write succeeds — the connected state, with the pipe open and the node
process reading; `nodeWrite` below makes the fd state explicit. -/
def p2pSend (s : ConnStatus) (excludedProtocols : List PublicId)
    (protocolId : PublicId) (encodedEnvelope : List Nat) : List Nat :=
  noiseWrite encodedEnvelope

/-- State of the write-end file descriptor `self._aea_to_noise` of
`NoiseNode.write`'s two `os.write` calls (lines 409–414):

* `unopened` — the initial value `-1` (connection.py line 303), in force
  whenever `_connect` has not opened the pipe (a never-connected
  connection);
* `openNoReader` — the fd was opened but `node.stop()` (lines 438–446)
  terminated the node process, the FIFO's only reader (the state after a
  prior `disconnect()`);
* `openWithReader` — the fd is open and the node process is alive reading
  (the connected state). -/
inductive WriteEndState where
  | unopened : WriteEndState
  | openNoReader : WriteEndState
  | openWithReader : WriteEndState
deriving DecidableEq, Repr

/-- `NoiseNode.write` (lines 409–414) with the write-end fd state explicit:
`os.write(-1, ...)` raises `OSError(EBADF)` (errno 9); a write on a FIFO
with no living reader raises `BrokenPipeError` (errno 32) — in both cases
no bytes reach the pipe; with the pipe open and the reader alive the
framed length prefix and payload are written. -/
def nodeWrite (fd : WriteEndState) (data : List Nat) :
    Except PyError (List Nat) :=
  match fd with
  | WriteEndState.unopened => Except.error (PyError.osError 9)
  | WriteEndState.openNoReader => Except.error (PyError.osError 32)
  | WriteEndState.openWithReader => Except.ok (noiseWrite data)

/-- `P2PNoiseConnection.send` (lines 572–578) with the node's write-end fd
state explicit: the body performs no status check and no filter check —
the outcome is exactly whatever `os.write` does for the current fd state,
independent of the status flags, the `excluded_protocols`, and the
envelope's `protocol_id`. -/
def p2pSendWithNode (s : ConnStatus) (excludedProtocols : List PublicId)
    (protocolId : PublicId) (fd : WriteEndState)
    (encodedEnvelope : List Nat) : Except PyError (List Nat) :=
  nodeWrite fd encodedEnvelope

/-- `P2PNoiseConnection._receive_from_node` (lines 580–591), the inbound
pump, run over the remaining inbound stream: it loops `node.read()`,
breaking when the read returns `None` and otherwise enqueueing the raw
frame with `put_nowait(data)`.  The result is the list of items enqueued —
note the loop `break`s at end-of-stream without enqueueing anything.
Each successful read consumes at least 4 bytes, so `s.length` bounds the
number of iterations. -/
def pumpAux : Nat → List Nat → List (Option (List Nat))
  | 0, _ => []
  | fuel + 1, s =>
    match noiseRead s with
    | none => []
    | some (d, rest) => some d :: pumpAux fuel rest

/-- The queue contents produced by the inbound pump on stream `s`. -/
def pumpQueue (s : List Nat) : List (Option (List Nat)) :=
  pumpAux s.length s

/-- `P2PNoiseConnection.receive` (lines 548–570) acting on one dequeued
item: on the `None` sentinel it stops the node, sets
`is_connected = False` and returns `None`; on data it returns the decoded
envelope (kept here as the raw frame bytes).  Returns the value produced
and the resulting status. -/
def p2pReceive (item : Option (List Nat)) (s : ConnStatus) :
    Option (List Nat) × ConnStatus :=
  match item with
  | none => (none, { s with connectedFlag := false })
  | some d => (some d, s)

/-! ## `HTTPClientConnection` / `HTTPClientChannel`
(http_client/connection.py) -/

/-- The http protocol id used by the http client channel. -/
def httpProtocolId : PublicId := ⟨"fetchai", "http", "0.2.0"⟩

/-- The prometheus protocol id (`PrometheusMessage.protocol_id`). -/
def prometheusProtocolId : PublicId := ⟨"fetchai", "prometheus", "0.1.0"⟩

/-- Performative of an `HttpMessage`. -/
inductive HttpPerformative where
  | request : HttpPerformative
  | response : HttpPerformative
deriving DecidableEq, Repr

/-- Observable outcome of `HTTPClientChannel.send`. -/
inductive HttpSendOutcome where
  | didNothing : HttpSendOutcome
  | raisedValueError : HttpSendOutcome
  | performedRequest : HttpSendOutcome
  | warnedAndDropped : HttpSendOutcome
deriving DecidableEq, Repr

/-- `HTTPClientChannel.send` (lines 85–124).  The whole body sits under
`if self.excluded_protocols is not None:` — with `excluded_protocols`
equal to `None` (the constructor default) the method falls through and
does nothing at all.  Otherwise: an excluded `protocol_id` raises
`ValueError("Cannot send message.")` before any request is made; a
`REQUEST` performative performs the blocking HTTP request and enqueues the
response envelope; any other performative logs
"The HTTPMessage performative must be a REQUEST. Envelop dropped." and
drops the envelope. -/
def httpChannelSend (excludedProtocols : Option (List PublicId))
    (protocolId : PublicId) (perf : HttpPerformative) : HttpSendOutcome :=
  match excludedProtocols with
  | none => HttpSendOutcome.didNothing
  | some excl =>
    if protocolId ∈ excl then HttpSendOutcome.raisedValueError
    else
      match perf with
      | HttpPerformative.request => HttpSendOutcome.performedRequest
      | HttpPerformative.response => HttpSendOutcome.warnedAndDropped

/-- `HTTPClientConnection.send` (lines 209–220): raises
`ConnectionError("Connection not established yet. Please use 'connect()'.")`
unless `connection_status.is_connected`, then delegates to the channel. -/
def httpConnectionSend (s : ConnStatus)
    (excludedProtocols : Option (List PublicId)) (protocolId : PublicId)
    (perf : HttpPerformative) : Except PyError HttpSendOutcome :=
  if s.connectedFlag then
    Except.ok (httpChannelSend excludedProtocols protocolId perf)
  else
    Except.error (PyError.connectionError
      "Connection not established yet. Please use 'connect()'.")

/-- `HTTPClientConnection.disconnect` (lines 199–207): only when
`is_connected` does it clear the flag and call `channel.disconnect()`
(which never raises); otherwise it falls through, a no-op. -/
def httpDisconnect (s : ConnStatus) : ConnStatus :=
  if s.connectedFlag then { s with connectedFlag := false } else s

/-! ## `PrometheusConnection` / `PrometheusChannel`
(prometheus/connection.py)

`PrometheusConnection` uses the newer base-class API
(`ConnectionStates`, `self.is_connected`, `self.is_disconnected`,
`self._ensure_connected`); that base class (`aea.connections.base`) is not
in the sampled sources, so those helpers are modelled from the spec where
noted. -/

/-- Modelled from the spec: the `ConnectionStates` enum of the newer base
class (`aea.connections.base`, not in the sampled sources) —
"**ConnectionStatus**: enum {disconnected, connecting, connected,
disconnecting}". -/
inductive ConnectionStates where
  | connected : ConnectionStates
  | connecting : ConnectionStates
  | disconnected : ConnectionStates
  | disconnecting : ConnectionStates
deriving DecidableEq, Repr

/-- `PrometheusConnection.disconnect` (lines 257–268): returns immediately
when `self.is_disconnected` (state unchanged, nothing raised); otherwise
sets `disconnecting`, runs `channel.disconnect()` (which enqueues a `None`
sentinel and never raises), then sets `disconnected`.
(`is_disconnected` is modelled from the spec as
`state = disconnected`, the base class being outside the sample.) -/
def prometheusDisconnect (st : ConnectionStates) : ConnectionStates :=
  if st = ConnectionStates.disconnected then st
  else ConnectionStates.disconnected

/-- Metric objects held in `PrometheusChannel.metrics`: a prometheus client
metric exposes a set of attribute names (`inc`, `set`, `observe`, ...);
`getattr(metric, name, None)` is `None` exactly when `name` is not among
them, and calling the retrieved bound method mutates the metric — recorded
here as the list of `(callable, value)` invocations applied. -/
structure Metric where
  attrs : List String
  calls : List (String × Int)
deriving DecidableEq, Repr

/-- The effect of `update_func(message.value)` on a metric. -/
def Metric.invoke (m : Metric) (callableName : String) (value : Int) :
    Metric :=
  { m with calls := m.calls ++ [(callableName, value)] }

/-- The `UPDATE_METRIC` branch of
`PrometheusChannel.handle_prometheus_message` (lines 176–191), together
with the `code` field of the reply built at lines 193–198:

* `message.title` absent from `self.metrics` — reply code 404, nothing
  touched;
* `getattr(self.metrics[metric], message.callable, None)` is `None` —
  reply code 400, nothing touched;
* otherwise `update_func(message.value)` runs and the reply code is 200.

`metrics` is the `Dict[str, Any]` keyed by title. -/
def handleUpdateMetric (metrics : List (String × Metric))
    (title callableName : String) (value : Int) :
    Nat × List (String × Metric) :=
  match metrics.lookup title with
  | none => (404, metrics)
  | some m =>
    if callableName ∈ m.attrs then
      (200, metrics.map fun p =>
        if p.1 = title then (title, m.invoke callableName value) else p)
    else (400, metrics)

/-- `PrometheusChannel.send` (lines 128–138): raises
`ValueError("This protocol is not valid for prometheus.")` when the
envelope's `protocol_id` differs from `PrometheusMessage.protocol_id`,
else forwards to `handle_prometheus_message`. -/
def prometheusChannelSend (protocolId : PublicId)
    (metrics : List (String × Metric)) (title callableName : String)
    (value : Int) : Except PyError (Nat × List (String × Metric)) :=
  if protocolId = prometheusProtocolId then
    Except.ok (handleUpdateMetric metrics title callableName value)
  else
    Except.error (PyError.valueError "This protocol is not valid for prometheus.")

/-- `PrometheusConnection.send` (lines 270–278): `self._ensure_connected()`
then `await self.channel.send(envelope)`.  `_ensure_connected` is modelled
from the spec ("fails with `NotConnectedError` if status ≠ `connected`"),
the base class being outside the sample; the concrete exception type is
Python's `ConnectionError`. -/
def prometheusConnectionSend (st : ConnectionStates) (protocolId : PublicId)
    (metrics : List (String × Metric)) (title callableName : String)
    (value : Int) : Except PyError (Nat × List (String × Metric)) :=
  if st = ConnectionStates.connected then
    prometheusChannelSend protocolId metrics title callableName value
  else
    Except.error (PyError.connectionError "Connection not connected.")

/-! ## Claim theorems -/

/-- C1 — counterexample.  The claim quantifies over *every* sequence of
payload byte-strings, but the empty payload does not round-trip: writing
`b""` emits the four zero bytes `00 00 00 00`, and `NoiseNode.read` then
hits `if not data: return None` after the zero-length exact read, reporting
end-of-stream instead of yielding the payload.  So a one-element sequence
comes back as no payload at all. -/
theorem framing_empty_payload_C1_counterexample :
    noiseWriteAll [([] : List Nat)] = [0, 0, 0, 0] ∧
      noiseReadN 1 (noiseWriteAll [([] : List Nat)]) = none ∧
      noiseReadN 1 (noiseWriteAll [([] : List Nat)]) ≠
        some [([] : List Nat)] := by
  refine ⟨rfl, rfl, by decide⟩

/-- C1 — amended: writing every payload of a sequence via `NoiseNode.write`
(4-byte big-endian length prefix followed by exactly the payload bytes) and
reading the concatenated stream back via `NoiseNode.read` yields the same
payloads in the same order, provided each payload is non-empty and shorter
than `2^32` bytes (an empty payload is misread as end-of-stream; a payload
of `2^32` bytes or more makes `struct.pack("!I", ...)` raise). -/
theorem framing_roundtrip_C1 (payloads : List (List Nat))
    (h : ∀ p ∈ payloads, p ≠ [] ∧ p.length < 4294967296) :
    noiseReadN payloads.length (noiseWriteAll payloads) = some payloads := by
  induction payloads with
  | nil => rfl
  | cons p ps ih =>
    have hp := h p (List.mem_cons_self p ps)
    have hps : ∀ q ∈ ps, q ≠ [] ∧ q.length < 4294967296 := by
      intro q hq
      exact h q (List.mem_cons_of_mem p hq)
    have hjoin : noiseWriteAll (p :: ps) = noiseWrite p ++ noiseWriteAll ps := by
      simp [noiseWriteAll]
    rw [List.length_cons, hjoin]
    simp only [noiseReadN, noiseRead_noiseWrite p (noiseWriteAll ps) hp.1 hp.2,
      ih hps]

/-- C1 — witness for the amended round trip at a concrete two-payload
sequence. -/
theorem framing_roundtrip_C1_witness :
    noiseReadN 2 (noiseWriteAll [[1], [2, 3]]) = some [[1], [2, 3]] :=
  framing_roundtrip_C1 [[1], [2, 3]] (by decide)

/-- C2 — counterexample.  `P2PNoiseConnection.disconnect` opens with
`assert is_connected or is_connecting, "Call connect before disconnect."`,
so calling it on an already-disconnected connection raises
`AssertionError` — it is not a no-op and does not return normally. -/
theorem p2p_disconnect_C2_counterexample :
    p2pDisconnect disconnectedStatus false =
      Except.error (PyError.assertionError "Call connect before disconnect.") := rfl

/-- C2 — amended: `disconnect()` on an already-disconnected connection is a
no-op that returns normally with the state unchanged for the HTTP-client and
prometheus connections, but `P2PNoiseConnection.disconnect` raises an
`AssertionError` in that situation. -/
theorem disconnect_when_disconnected_C2 :
    httpDisconnect disconnectedStatus = disconnectedStatus ∧
      prometheusDisconnect ConnectionStates.disconnected =
        ConnectionStates.disconnected ∧
      ∀ q : Bool, p2pDisconnect disconnectedStatus q =
        Except.error (PyError.assertionError "Call connect before disconnect.") :=
  ⟨rfl, rfl, fun _ => rfl⟩

/-- C3 — counterexample.  `P2PNoiseConnection.send` performs the framed
pipe write even when the connection's `excluded_protocols` contains the
envelope's protocol: with the http protocol excluded and an envelope of
that very protocol, the outbound pipe still receives the framed bytes and
no `ProtocolNotSupportedError` (no error at all) is raised. -/
theorem p2p_send_excluded_C3_counterexample :
    p2pSend ⟨true, false⟩ [httpProtocolId] httpProtocolId [9] =
      [0, 0, 0, 1, 9] := rfl

/-- C3 — amended: the exclusion filter is enforced only by the HTTP client
channel — an excluded protocol makes `HTTPClientChannel.send` raise
`ValueError("Cannot send message.")` before any HTTP request is issued —
while `P2PNoiseConnection.send` ignores `excluded_protocols` entirely and
writes the framed envelope to the pipe regardless. -/
theorem excluded_protocol_C3 (excl : List PublicId) (p : PublicId)
    (perf : HttpPerformative) (s : ConnStatus) (data : List Nat)
    (hmem : p ∈ excl) :
    httpChannelSend (some excl) p perf = HttpSendOutcome.raisedValueError ∧
      p2pSend s excl p data = noiseWrite data := by
  constructor
  · simp [httpChannelSend, hmem]
  · rfl

/-- C3 — witness for the amended filtering behaviour at concrete inputs. -/
theorem excluded_protocol_C3_witness :
    httpChannelSend (some [httpProtocolId]) httpProtocolId
        HttpPerformative.request = HttpSendOutcome.raisedValueError ∧
      p2pSend ⟨true, false⟩ [httpProtocolId] httpProtocolId [9] =
        noiseWrite [9] :=
  excluded_protocol_C3 [httpProtocolId] httpProtocolId
    HttpPerformative.request ⟨true, false⟩ [9] (by decide)

/-- C4 — counterexample.  `P2PNoiseConnection.send` has no status check
and no `NotConnectedError` path.  On a fully disconnected, never-connected
connection the write-end fd still holds its initial value `-1`
(connection.py line 303), so the unchecked `os.write` at line 412 raises
`OSError(EBADF)` — an `OSError`, not the `NotConnectedError` the claim
requires — and after a prior `disconnect()` stopped the node (the FIFO's
only reader) it raises `BrokenPipeError` instead; in neither case is the
raised error a `ConnectionError`-class status failure. -/
theorem p2p_send_oserror_C4_counterexample :
    p2pSendWithNode disconnectedStatus [] httpProtocolId
        WriteEndState.unopened [7] = Except.error (PyError.osError 9) ∧
      p2pSendWithNode disconnectedStatus [] httpProtocolId
        WriteEndState.openNoReader [7] = Except.error (PyError.osError 32) :=
  ⟨rfl, rfl⟩

/-- C4 — amended: `HTTPClientConnection.send` and
`PrometheusConnection.send` fail with a `ConnectionError` (the spec's
`NotConnectedError`) when the connection is not connected, performing no
backend effect.  `P2PNoiseConnection.send` performs no status check and
never raises a `NotConnectedError`: its outcome depends only on the node's
write-end fd state, not on the status flags — on a disconnected connection
the unchecked `os.write` itself fails, with `OSError(EBADF)` when never
connected (fd still `-1`) and `BrokenPipeError` after `disconnect()`
stopped the reading node process, and no bytes reach the pipe; only with
the pipe open and the reader alive does the framed write complete. -/
theorem send_not_connected_C4 (s s₂ : ConnStatus)
    (excl : Option (List PublicId)) (p : PublicId) (perf : HttpPerformative)
    (st : ConnectionStates) (metrics : List (String × Metric))
    (title c : String) (v : Int) (data : List Nat) (fd : WriteEndState)
    (hs : s.connectedFlag = false) (hst : st ≠ ConnectionStates.connected) :
    httpConnectionSend s excl p perf =
      Except.error (PyError.connectionError
        "Connection not established yet. Please use 'connect()'.") ∧
      prometheusConnectionSend st p metrics title c v =
        Except.error (PyError.connectionError "Connection not connected.") ∧
      p2pSendWithNode s (excl.getD []) p fd data =
        p2pSendWithNode s₂ (excl.getD []) p fd data ∧
      p2pSendWithNode s (excl.getD []) p WriteEndState.unopened data =
        Except.error (PyError.osError 9) ∧
      p2pSendWithNode s (excl.getD []) p WriteEndState.openNoReader data =
        Except.error (PyError.osError 32) ∧
      p2pSendWithNode s (excl.getD []) p WriteEndState.openWithReader data =
        Except.ok (noiseWrite data) := by
  refine ⟨?_, ?_, rfl, rfl, rfl, rfl⟩
  · simp [httpConnectionSend, hs]
  · simp [prometheusConnectionSend, hst]

/-- C4 — witness for the amended not-connected behaviour at concrete
inputs. -/
theorem send_not_connected_C4_witness :
    httpConnectionSend disconnectedStatus none httpProtocolId
        HttpPerformative.request =
      Except.error (PyError.connectionError
        "Connection not established yet. Please use 'connect()'.") ∧
      prometheusConnectionSend ConnectionStates.disconnected httpProtocolId
          [] "m" "inc" 1 =
        Except.error (PyError.connectionError "Connection not connected.") ∧
      p2pSendWithNode disconnectedStatus [] httpProtocolId
          WriteEndState.unopened [7] =
        p2pSendWithNode ⟨true, false⟩ [] httpProtocolId
          WriteEndState.unopened [7] ∧
      p2pSendWithNode disconnectedStatus [] httpProtocolId
          WriteEndState.unopened [7] = Except.error (PyError.osError 9) ∧
      p2pSendWithNode disconnectedStatus [] httpProtocolId
          WriteEndState.openNoReader [7] = Except.error (PyError.osError 32) ∧
      p2pSendWithNode disconnectedStatus [] httpProtocolId
          WriteEndState.openWithReader [7] = Except.ok (noiseWrite [7]) :=
  send_not_connected_C4 disconnectedStatus ⟨true, false⟩ none httpProtocolId
    HttpPerformative.request ConnectionStates.disconnected [] "m" "inc" 1 [7]
    WriteEndState.unopened rfl (by decide)

/-- C5 — counterexample.  When `node.start()` fails from a disconnected
state, `P2PNoiseConnection.connect` re-raises the original exception (no
`ConnectionSetupError` type exists in the code) and its handler only clears
`is_connected` — the `is_connecting` flag set at the top of the `try` block
remains `True`, so the connection is not left in the disconnected state the
claim requires. -/
theorem p2p_connect_failure_C5_counterexample :
    p2pConnect disconnectedStatus
        (Except.error (PyError.genericExc "go get failed")) =
      (some (PyError.genericExc "go get failed"),
        ⟨false, true⟩) := rfl

/-- C5 — amended: `P2PNoiseConnection.connect` is idempotent when already
connected (it returns immediately, state unchanged, acquiring nothing), and
on a resource-acquisition failure it re-raises the underlying exception
unchanged while clearing only `is_connected` — the `is_connecting` flag
remains set after the failure. -/
theorem p2p_connect_C5 (s : ConnStatus) (r : Except PyError Unit)
    (e : PyError) (hconn : s.connectedFlag = true)
    (s₂ : ConnStatus) (hdis : s₂.connectedFlag = false) :
    p2pConnect s r = (none, s) ∧
      p2pConnect s₂ (Except.error e) = (some e, ⟨false, true⟩) ∧
      p2pConnect s₂ (Except.ok ()) = (none, ⟨true, false⟩) := by
  refine ⟨?_, ?_, ?_⟩
  · simp [p2pConnect, hconn]
  · simp [p2pConnect, hdis]
  · simp [p2pConnect, hdis]

/-- C5 — witness for the amended connect behaviour at concrete states. -/
theorem p2p_connect_C5_witness :
    p2pConnect ⟨true, false⟩ (Except.ok ()) = (none, ⟨true, false⟩) ∧
      p2pConnect disconnectedStatus
          (Except.error (PyError.genericExc "boom")) =
        (some (PyError.genericExc "boom"), ⟨false, true⟩) ∧
      p2pConnect disconnectedStatus (Except.ok ()) =
        (none, ⟨true, false⟩) :=
  p2p_connect_C5 ⟨true, false⟩ (Except.ok ()) (PyError.genericExc "boom")
    rfl disconnectedStatus rfl

/-- C6 — confirmed: the pipe-open retry loop of `NoiseNode._connect`
terminates from every counter value the code can start it with (it is
initialized to 30, and any value ≥ 1 reaches the `== 1` check); only an
ENXIO `OSError` on the write-end open triggers the fixed-backoff retry,
re-entering the loop with the counter strictly decreased by one; any other
error — on the read-end or write-end open — propagates immediately; and an
exhausted counter raises the fatal
`Exception("Couldn't connect to noise p2p process")` rather than being
swallowed. -/
theorem node_connect_retry_C6 :
    (∀ (renv : Nat → Option Nat) (wenv : Nat → OpenWriteResult) (idx n : Nat),
        1 ≤ n → nodeConnect renv wenv idx n ≠ NodeConnectOutcome.diverged) ∧
      (∀ (renv : Nat → Option Nat) (wenv : Nat → OpenWriteResult)
          (idx n e : Nat), 2 ≤ n → renv idx = some e →
          nodeConnect renv wenv idx n = NodeConnectOutcome.raised e) ∧
      (∀ (renv : Nat → Option Nat) (wenv : Nat → OpenWriteResult)
          (idx n e : Nat), 2 ≤ n → renv idx = none →
          wenv idx = OpenWriteResult.oserr e →
          nodeConnect renv wenv idx n = NodeConnectOutcome.raised e) ∧
      (∀ (renv : Nat → Option Nat) (wenv : Nat → OpenWriteResult)
          (idx n : Nat), 2 ≤ n → renv idx = none →
          wenv idx = OpenWriteResult.enxio →
          nodeConnect renv wenv idx n = nodeConnect renv wenv (idx + 1) (n - 1)) ∧
      (∀ (renv : Nat → Option Nat) (wenv : Nat → OpenWriteResult) (idx : Nat),
          nodeConnect renv wenv idx 1 = NodeConnectOutcome.exhaustedRaise) := by
  refine ⟨nodeConnect_terminates, ?_, ?_, ?_, ?_⟩
  · intro renv wenv idx n e hn hr
    obtain ⟨m, rfl⟩ : ∃ m, n = m + 1 := ⟨n - 1, by omega⟩
    rw [nodeConnect, if_neg (by omega), hr]
  · intro renv wenv idx n e hn hr hw
    obtain ⟨m, rfl⟩ : ∃ m, n = m + 1 := ⟨n - 1, by omega⟩
    rw [nodeConnect, if_neg (by omega), hr, hw]
  · intro renv wenv idx n hn hr hw
    obtain ⟨m, rfl⟩ : ∃ m, n = m + 1 := ⟨n - 1, by omega⟩
    rw [nodeConnect, if_neg (by omega), hr, hw]
    simp
  · intro renv wenv idx
    rfl

/-- C6 — witness: the retry loop evaluated on concrete environments — a
persistently-ENXIO write end does not diverge and retries with the counter
decreased, a non-ENXIO error propagates as raised, and a counter at the
`== 1` guard raises the exhaustion error. -/
theorem node_connect_retry_C6_witness :
    nodeConnect (fun _ => none) (fun _ => OpenWriteResult.enxio) 0 3 ≠
        NodeConnectOutcome.diverged ∧
      nodeConnect (fun _ => none) (fun _ => OpenWriteResult.oserr 13) 0 2 =
        NodeConnectOutcome.raised 13 ∧
      nodeConnect (fun _ => none) (fun _ => OpenWriteResult.enxio) 0 3 =
        nodeConnect (fun _ => none) (fun _ => OpenWriteResult.enxio) 1 2 ∧
      nodeConnect (fun _ => none) (fun _ => OpenWriteResult.enxio) 4 1 =
        NodeConnectOutcome.exhaustedRaise :=
  ⟨node_connect_retry_C6.1 (fun _ => none) (fun _ => OpenWriteResult.enxio)
      0 3 (by omega),
    node_connect_retry_C6.2.2.1 (fun _ => none)
      (fun _ => OpenWriteResult.oserr 13) 0 2 13 (by omega) rfl rfl,
    node_connect_retry_C6.2.2.2.1 (fun _ => none)
      (fun _ => OpenWriteResult.enxio) 0 3 (by omega) rfl rfl,
    node_connect_retry_C6.2.2.2.2 (fun _ => none)
      (fun _ => OpenWriteResult.enxio) 4⟩

/-- Helper: the inbound pump only ever enqueues `some` items — the loop
`break`s on a `None` read without a `put_nowait`. -/
theorem pumpAux_no_none (fuel : Nat) (s : List Nat) :
    Option.none ∉ pumpAux fuel s := by
  induction fuel generalizing s with
  | zero => simp [pumpAux]
  | succ m ih =>
    rw [pumpAux]
    cases noiseRead s with
    | none => simp
    | some pr =>
      obtain ⟨d, rest⟩ := pr
      intro hmem
      rcases List.mem_cons.mp hmem with h | h
      · exact Option.noConfusion h
      · exact ih rest h

/-- C7 — counterexample.  At end-of-stream `_receive_from_node` simply
`break`s: the queue holds exactly the frames read and no trailing `None`
sentinel.  On a stream carrying one frame and then EOF, the queue is
`[some [7]]` — the sentinel the claim requires is absent (and on an
immediately-closed stream the queue stays empty), so a `receive()` blocked
on the queue is never signalled by the pump. -/
theorem pump_no_sentinel_C7_counterexample :
    pumpQueue [0, 0, 0, 1, 7] = [some [7]] ∧
      Option.none ∉ pumpQueue [0, 0, 0, 1, 7] ∧
      pumpQueue [] = [] := by
  refine ⟨rfl, by decide, rfl⟩

/-- C7 — amended: end-of-stream stops the inbound pump *without* enqueueing
any sentinel — the `None` sentinel reaches the queue only from
`disconnect()` (when the queue was initialized) — and when `receive()`
does dequeue that `None` it returns `None` (not an exception) and clears
the connected flag. -/
theorem pump_eof_C7 :
    (∀ s : List Nat, Option.none ∉ pumpQueue s) ∧
      p2pDisconnect ⟨true, false⟩ true =
        Except.ok (disconnectedStatus, true) ∧
      (∀ st : ConnStatus, p2pReceive none st =
        (none, { st with connectedFlag := false })) :=
  ⟨fun s => pumpAux_no_none s.length s, rfl, fun _ => rfl⟩

/-- C8 — counterexample.  A frame declaring 5 payload bytes of which only 2
arrive before the stream closes is a short read inconsistent with the
declared length, yet `NoiseNode.read` catches the `IncompleteReadError` and
returns `None` — byte-for-byte the same outcome as a clean close before a
frame starts.  No `IPCFramingError` exists anywhere in the code and nothing
forces the status to disconnected from here; the corrupt partial frame is
silently discarded. -/
theorem short_read_C8_counterexample :
    noiseRead [0, 0, 0, 5, 1, 2] = none ∧
      noiseRead ([] : List Nat) = none := ⟨rfl, rfl⟩

/-- C8 — amended: a short read inconsistent with the declared frame length
is *not* surfaced as an error: `NoiseNode.read` returns `None` for every
stream whose remaining bytes fall short of the decoded length prefix,
indistinguishable from a clean close (also `None`); the pump then stops,
silently discarding the partial frame, and no framing error type exists. -/
theorem short_read_C8 (s : List Nat) (h4 : 4 ≤ s.length)
    (hshort : (s.drop 4).length < be32dec (s.take 4)) :
    noiseRead s = none := by
  rw [noiseRead, if_neg (by omega)]
  simp only [if_pos hshort]

/-- C8 — witness: the short-read-as-end-of-stream behaviour at the concrete
truncated frame. -/
theorem short_read_C8_witness :
    noiseRead [0, 0, 0, 5, 1, 2] = none :=
  short_read_C8 [0, 0, 0, 5, 1, 2] (by decide) (by decide)

/-- C9 — `HTTPClientChannel.send` evaluated at the failing input: with
`excluded_protocols = None` (the constructor's default) the entire method
body sits under `if self.excluded_protocols is not None:` and is skipped,
so a well-formed http REQUEST envelope is silently dropped — no HTTP
request, no enqueued response, no error — contradicting the method's own
docstring ("send the http request, wait for and receive its response ...
send the response envelope to the in-queue"). -/
theorem http_send_silent_drop_C9 :
    httpChannelSend none httpProtocolId HttpPerformative.request =
      HttpSendOutcome.didNothing := rfl

/-- C10 — confirmed: in the `UPDATE_METRIC` branch of
`PrometheusChannel.handle_prometheus_message`, an absent metric title
yields reply code 404 with the metrics map unchanged; a present metric
whose object lacks the requested callable attribute yields code 400 with
everything unchanged; and only when both exist is the update applied to
that metric, with reply code 200. -/
theorem update_metric_C10 (metrics : List (String × Metric))
    (title c : String) (v : Int) :
    (metrics.lookup title = none →
        handleUpdateMetric metrics title c v = (404, metrics)) ∧
      (∀ m : Metric, metrics.lookup title = some m → c ∉ m.attrs →
        handleUpdateMetric metrics title c v = (400, metrics)) ∧
      (∀ m : Metric, metrics.lookup title = some m → c ∈ m.attrs →
        handleUpdateMetric metrics title c v =
          (200, metrics.map fun p =>
            if p.1 = title then (title, m.invoke c v) else p)) := by
  refine ⟨?_, ?_, ?_⟩
  · intro h
    simp [handleUpdateMetric, h]
  · intro m hm hc
    simp [handleUpdateMetric, hm, hc]
  · intro m hm hc
    simp [handleUpdateMetric, hm, hc]

/-- C10 — witness: the three reply codes at a concrete one-metric map whose
metric exposes only the `inc` callable. -/
theorem update_metric_C10_witness :
    handleUpdateMetric [("m", ⟨["inc"], []⟩)] "x" "inc" 5 =
        (404, [("m", ⟨["inc"], []⟩)]) ∧
      handleUpdateMetric [("m", ⟨["inc"], []⟩)] "m" "observe" 5 =
        (400, [("m", ⟨["inc"], []⟩)]) ∧
      handleUpdateMetric [("m", ⟨["inc"], []⟩)] "m" "inc" 5 =
        (200, [("m", ⟨["inc"], [("inc", 5)]⟩)]) :=
  ⟨(update_metric_C10 [("m", ⟨["inc"], []⟩)] "x" "inc" 5).1 (by decide),
    (update_metric_C10 [("m", ⟨["inc"], []⟩)] "m" "observe" 5).2.1
      ⟨["inc"], []⟩ (by decide) (by decide),
    ((update_metric_C10 [("m", ⟨["inc"], []⟩)] "m" "inc" 5).2.2
      ⟨["inc"], []⟩ (by decide) (by decide)).trans (by decide)⟩

end AeaTransport
